import Mathlib

/-!
# Verification of the agentic-rag browser-side data-exploration client

Shallow embedding of the three browsing scripts (the main dashboard script,
`static/calls.js`, and the call-detail script) together with proofs about the
pagination controller, query builder, nested-analysis decoder, graph adapter,
baseline-metrics view, options sync and error handling.

Modelling conventions:
* JavaScript strings are Lean `String`s; the JS truthiness test on a string is
  `s ≠ ""`, and `a || b` on strings is `jsOr a b` below.
* A JS value that may be `undefined`/`null` is an `Option`; `some ""` is the
  empty string, which is falsy but not nullish (relevant for `??`).
* Numbers held by the client state (page counters, totals) are `Int`/`Nat`;
  `Math.ceil` of a non-negative quotient is the rational ceiling `⌈·⌉₊`.
* Plain-object property tables are association lists carrying the ECMAScript
  own-property enumeration order (integer-indexed keys first in ascending
  numeric order, then string keys in insertion order); a property read on a
  key with no own entry falls through to the `Object.prototype` members
  (`protoObjectKeys` below), which is how the source's grouping loop can
  throw an uncaught TypeError.
-/

/-- JS `a || b` restricted to strings: the empty string is falsy. -/
def jsOr (a b : String) : String := if a = "" then b else a

/-! ## Pagination controller (dashboard script, lines 194–196)

`function computeTotalPages(total, pageSize) { return Math.max(1, Math.ceil(total / pageSize)); }` -/

/-- Dashboard `computeTotalPages`: `Math.max(1, Math.ceil(total / pageSize))`,
with the division read over ℚ since `total ≥ 0` and `pageSize > 0` in every call site. -/
def computeTotalPages (total pageSize : Nat) : Nat :=
  max 1 ⌈(total : ℚ) / (pageSize : ℚ)⌉₊

/-! ## Query builder (dashboard script, lines 104–116; calls.js, lines 73–84) -/

/-- Client-held browse state of the dashboard script (lines 1–8) together with
the fields the script later attaches to it (`total`, set on line 132;
`lastColumns`, line 133) and the rendered artefacts we track for the staleness
arguments (the option lists of the two filter `<select>`s and the displayed
table). -/
structure BrowseState where
  dataset : String
  page : Int
  pageSize : Nat
  total : Nat
  ticker : String
  quarter : String
  search : String
  tickerOptions : List String
  quarterOptions : List String
  lastColumns : List String
  displayedRows : List (List (String × String))
deriving Repr, DecidableEq

/-- Initial dashboard state (lines 1–8): `dataset: null, page: 1, pageSize: 25`,
empty filters; `total` is still unset (the script reads it as `state.total || 0`,
so we initialise it to 0) and nothing is rendered yet. -/
def initBrowseState : BrowseState :=
  { dataset := "", page := 1, pageSize := 25, total := 0,
    ticker := "", quarter := "", search := "",
    tickerOptions := [], quarterOptions := [], lastColumns := [], displayedRows := [] }

/-- The key/value pairs accumulated by `buildQueryString` (lines 104–116): the
`URLSearchParams` constructor always holds `dataset`, `page` and `page_size`,
and `ticker`/`quarter`/`search` are appended only when truthy (non-empty). -/
def buildQueryParams (s : BrowseState) : List (String × String) :=
  [("dataset", s.dataset), ("page", toString s.page), ("page_size", toString s.pageSize)]
    ++ (if s.ticker = "" then [] else [("ticker", s.ticker)])
    ++ (if s.quarter = "" then [] else [("quarter", s.quarter)])
    ++ (if s.search = "" then [] else [("search", s.search)])

/-- UTF-8 bytes of one code point (as `Nat`s below 256). -/
def utf8Bytes (c : Char) : List Nat :=
  let n := c.toNat
  if n < 128 then [n]
  else if n < 2048 then [192 + n / 64, 128 + n % 64]
  else if n < 65536 then [224 + n / 4096, 128 + (n / 64) % 64, 128 + n % 64]
  else [240 + n / 262144, 128 + (n / 4096) % 64, 128 + (n / 64) % 64, 128 + n % 64]

/-- One byte of the `application/x-www-form-urlencoded` serializer used by
`URLSearchParams.toString()`: ASCII alphanumerics and `*-._` pass through,
space becomes `+`, every other byte is percent-encoded with uppercase hex. -/
def isUrlSafeByte (b : Nat) : Bool :=
  (48 ≤ b && b ≤ 57) || (65 ≤ b && b ≤ 90) || (97 ≤ b && b ≤ 122) ||
    b == 42 || b == 45 || b == 46 || b == 95

/-- Uppercase hex digit of a value below 16. -/
def hexDigit (n : Nat) : Char :=
  if n < 10 then Char.ofNat (48 + n) else Char.ofNat (55 + n)

/-- Percent-encoding of a single byte per the form-urlencoded serializer. -/
def urlEncodeByte (b : Nat) : String :=
  if b == 32 then "+"
  else if isUrlSafeByte b then String.singleton (Char.ofNat b)
  else "%" ++ String.singleton (hexDigit (b / 16)) ++
    String.singleton (hexDigit (b % 16))

/-- Form-urlencoding of a string: encode each UTF-8 byte. -/
def urlEncode (s : String) : String :=
  ((s.data.flatMap utf8Bytes).map urlEncodeByte).foldl (· ++ ·) ""

/-- Serialization of `URLSearchParams.toString()`: `k=v` pairs with both sides encoded, joined by `&`. -/
def renderQuery (ps : List (String × String)) : String :=
  String.intercalate "&" (ps.map fun p => urlEncode p.1 ++ "=" ++ urlEncode p.2)

/-- Dashboard `buildQueryString` (lines 104–116). -/
def buildQueryString (s : BrowseState) : String :=
  renderQuery (buildQueryParams s)

/-- Client state of `calls.js` (lines 1–10) plus the `maxPage` field the
response handler attaches (line 92); `callState.maxPage || 1` reads the
still-unset field as 1, which we model with an `Option`. -/
structure CallsState where
  page : Int
  pageSize : Nat
  exchange : String
  sector : String
  pred : String
  retMin : String
  retMax : String
  sort : String
  maxPage : Option Nat
deriving Repr, DecidableEq

/-- Initial `calls.js` state (lines 1–10). -/
def initCallsState : CallsState :=
  { page := 1, pageSize := 10, exchange := "", sector := "", pred := "",
    retMin := "", retMax := "", sort := "date", maxPage := none }

/-- The key/value pairs accumulated by `loadCalls` (calls.js, lines 74–84):
`page`, `page_size` and `sort_by` always, the five filters only when truthy. -/
def loadCallsParams (s : CallsState) : List (String × String) :=
  [("page", toString s.page), ("page_size", toString s.pageSize), ("sort_by", s.sort)]
    ++ (if s.exchange = "" then [] else [("exchange", s.exchange)])
    ++ (if s.sector = "" then [] else [("sector", s.sector)])
    ++ (if s.pred = "" then [] else [("pred_label", s.pred)])
    ++ (if s.retMin = "" then [] else [("return_min", s.retMin)])
    ++ (if s.retMax = "" then [] else [("return_max", s.retMax)])

/-- Query string sent by `loadCalls` (calls.js, line 86). -/
def loadCallsQueryString (s : CallsState) : String :=
  renderQuery (loadCallsParams s)

/-! ## Nested analysis decoder (dashboard script, lines 312–401)

`renderAgentDetails` reads `row.parsed_and_analyzed_facts`, parses it when it
is a string, projects `items` (defaulting to `[]` when not an array, line 331)
and `summary` (defaulting to `""`, line 332), groups the items by type into a
plain object and renders the groups followed by the summary. -/

/-- One entry of `parsed.items`. The script only ever reads `type`, `metric`,
`value` and `reason` through `||`-defaulting (lines 341, 357–359), which
treats `undefined`, `null` and `""` identically, so each field is a `String`
with `""` standing for a missing or empty value. -/
structure FactItem where
  type : String
  metric : String
  value : String
  reason : String
deriving Repr, DecidableEq

/-- The decoded analysis block after the projections of lines 331–332:
`items` is `parsed.items` when that is an array and `[]` otherwise, and
`summary` is `parsed.summary || ""`. -/
structure Analysis where
  items : List FactItem
  summary : String
deriving Repr, DecidableEq

/-- The raw `row.parsed_and_analyzed_facts` field: absent (or `null`), a
string, or an already-structured object. -/
inductive RawAnalysis where
  | absent
  | strField (s : String)
  | objField (a : Analysis)
deriving Repr, DecidableEq

/-- JS `item.type || "Other"` (line 341). -/
def jsGroupKey (it : FactItem) : String := jsOr it.type "Other"

/-- Own property names of `Object.prototype`: reading `groups[t]` on the
plain object `groups` for one of these keys finds a truthy inherited value
(a built-in function, or the prototype object itself for `__proto__`) even
when `t` has no own bucket. -/
def protoObjectKeys : List String :=
  ["constructor", "hasOwnProperty", "isPrototypeOf", "propertyIsEnumerable",
   "toLocaleString", "toString", "valueOf", "__proto__",
   "__defineGetter__", "__defineSetter__", "__lookupGetter__", "__lookupSetter__"]

/-- One assignment step of the grouping loop (lines 340–344), following the
source's property reads on the plain object `groups`: an existing own bucket
(always a non-empty array, hence truthy) has the item pushed onto it; a key
with no own bucket that names an inherited `Object.prototype` member reads
truthy at line 342, so bucket creation is skipped and `groups[t].push` at
line 343 throws an uncaught TypeError (`none`); any other fresh key reads
`undefined` (falsy), and gets a singleton bucket appended at the end. -/
def insertGroup : List (String × List FactItem) → String → FactItem →
    Option (List (String × List FactItem))
  | [], k, it => if k ∈ protoObjectKeys then none else some [(k, [it])]
  | (k0, l) :: rest, k, it =>
      if k0 = k then some ((k0, l ++ [it]) :: rest)
      else (insertGroup rest k it).map (fun gs => (k0, l) :: gs)

/-- The grouping loop `items.forEach` (lines 339–344), item by item: `none`
when the loop throws on a prototype-colliding type key. -/
def buildGroupsAux : List (String × List FactItem) → List FactItem →
    Option (List (String × List FactItem))
  | gs, [] => some gs
  | gs, it :: rest =>
      match insertGroup gs (jsGroupKey it) it with
      | none => none
      | some gs2 => buildGroupsAux gs2 rest

/-- The property table built by `items.forEach` (lines 339–344), in insertion
order, or `none` when the loop throws. -/
def buildGroups (items : List FactItem) : Option (List (String × List FactItem)) :=
  buildGroupsAux [] items

/-- Reference bucket insertion for the non-throwing case: push onto an
existing bucket, else append a fresh singleton bucket at the end. -/
def insertBucket : List (String × List FactItem) → String → FactItem →
    List (String × List FactItem)
  | [], k, it => [(k, [it])]
  | (k0, l) :: rest, k, it =>
      if k0 = k then (k0, l ++ [it]) :: rest else (k0, l) :: insertBucket rest k it

/-- Reference bucket table: what the grouping loop computes whenever no type
key collides with an `Object.prototype` member. -/
def bucketTable (items : List FactItem) : List (String × List FactItem) :=
  items.foldl (fun gs it => insertBucket gs (jsGroupKey it) it) []

/-- ASCII decimal digit test. -/
def isDigitChar (c : Char) : Bool := 48 ≤ c.toNat && c.toNat ≤ 57

/-- Value of a decimal digit string. -/
def digitsToNat (cs : List Char) : Nat :=
  cs.foldl (fun n c => n * 10 + (c.toNat - 48)) 0

/-- Whether a string is a canonical ECMAScript array index: the canonical
decimal form (non-empty, all digits, no leading zero except `"0"` itself) of
an integer `0 ≤ n < 2^32 - 1`. -/
def isArrayIndex (s : String) : Bool :=
  match s.data with
  | [] => false
  | c :: rest =>
      (c :: rest).all isDigitChar && (c != '0' || rest.isEmpty) &&
        digitsToNat (c :: rest) < 2 ^ 32 - 1

/-- Numeric value of an array-index key. -/
def keyNumVal (s : String) : Nat := digitsToNat s.data

/-- Insertion into a list of buckets sorted by ascending numeric key (used
only on buckets whose keys are array indices). -/
def insertByIndex (p : String × List FactItem) :
    List (String × List FactItem) → List (String × List FactItem)
  | [] => [p]
  | q :: rest =>
      if keyNumVal p.1 ≤ keyNumVal q.1 then p :: q :: rest
      else q :: insertByIndex p rest

/-- Model of `Object.entries` on the property table (line 346): per the ECMAScript
own-property order, keys that are canonical array indices come first in
ascending numeric order, the remaining string keys follow in insertion
order. -/
def jsEntries (gs : List (String × List FactItem)) : List (String × List FactItem) :=
  ((gs.filter fun p => isArrayIndex p.1).foldr insertByIndex []) ++
    (gs.filter fun p => !isArrayIndex p.1)

/-- First-seen order of the group keys of an item list (what "insertion order"
means for the grouping loop). -/
def firstSeenKeys (items : List FactItem) : List String :=
  items.foldl (fun acc it => if jsGroupKey it ∈ acc then acc else acc ++ [jsGroupKey it]) []

/-- One rendered `<details>` section (lines 346–355): title `"<type> (<count>)"`,
`open` exactly for the first entry, bucket items in bucket order. -/
structure GroupView where
  title : String
  isOpen : Bool
  items : List FactItem
deriving Repr, DecidableEq

/-- A child appended to the `#agent-details` container: a group section
(lines 346–389) or the summary block (lines 391–400). -/
inductive RenderBlock where
  | group (g : GroupView)
  | summaryBlock (text : String)
deriving Repr, DecidableEq

/-- Outcome of `renderAgentDetails`: the "no analysis" message (lines 319,
335), the "could not parse" message (line 327), an uncaught TypeError that
escapes the function (`thrown`), or the rendered content. -/
inductive AgentView where
  | noAnalysis
  | parseError
  | thrown
  | content (blocks : List RenderBlock)
deriving Repr, DecidableEq

/-- The group sections of a completed property table, in `Object.entries`
order (lines 346–389). -/
def groupViews (gs : List (String × List FactItem)) : List GroupView :=
  (jsEntries gs).enum.map fun p =>
    { title := p.2.1 ++ " (" ++ toString p.2.2.length ++ ")",
      isOpen := p.1 == 0,
      items := p.2.2 }

/-- Lines 334–400 of `renderAgentDetails`, applied to an already-projected
analysis block: the early return for empty items and summary, then the
grouping loop (which can throw), then the group sections and the summary
block. -/
def renderAnalysis (a : Analysis) : AgentView :=
  if a.items = [] ∧ a.summary = "" then .noAnalysis
  else
    match buildGroups a.items with
    | none => .thrown
    | some gs =>
        .content ((groupViews gs).map RenderBlock.group ++
          (if a.summary = "" then [] else [RenderBlock.summaryBlock a.summary]))

/-- What `JSON.parse` can hand the decoder: the JSON value `null`, or any
non-null value. Property reads never throw on a non-null value, so a
non-null result is carried already projected per lines 331–332 (`items` is
`parsed.items` when that is an array and `[]` otherwise — also for non-object
values, whose `.items` is `undefined` — and `summary` is
`parsed.summary || ""`). -/
inductive JsonDecoded where
  | null
  | value (a : Analysis)
deriving Repr, DecidableEq

/-- Function `renderAgentDetails` (lines 312–401); `parse` is the host
`JSON.parse`, with `none` modelling a thrown `SyntaxError`. A falsy raw field
(absent, `null` or the empty string) takes the early return of lines 318–321;
a string is parsed inside `try`/`catch` (lines 323–329), but the projections
of lines 331–332 run OUTSIDE the `try`: when the parse succeeds with the JSON
value `null`, the property read `parsed.items` at line 331 throws an uncaught
TypeError (`thrown`). The object branch (line 325, no parse) carries a truthy
— hence non-null — value, projected the same way. -/
def renderAgentDetails (parse : String → Option JsonDecoded) : RawAnalysis → AgentView
  | .absent => .noAnalysis
  | .strField s =>
      if s = "" then .noAnalysis
      else
        match parse s with
        | none => .parseError
        | some .null => .thrown
        | some (.value a) => renderAnalysis a
  | .objField a => renderAnalysis a

/-! ## Graph view adapter (dashboard script, lines 247–303) -/

/-- A node of the `/api/graph` payload: `labels` absent is `[]`, `properties`
absent is the empty table; the script reads only the four string-valued
properties named on lines 257–260. -/
structure GraphNode where
  id : String
  labels : List String
  props : List (String × String)
deriving Repr, DecidableEq

/-- Property read `n.properties?.<k>` as a string, with `undefined` as `""` (falsy). -/
def propOr (n : GraphNode) (k : String) : String :=
  (n.props.lookup k).getD ""

/-- The label chain of lines 256–262:
`ticker || symbol || metric || quarter || (labels && labels[0]) || id`. -/
def nodeLabel (n : GraphNode) : String :=
  jsOr (propOr n "ticker") (jsOr (propOr n "symbol") (jsOr (propOr n "metric")
    (jsOr (propOr n "quarter") (jsOr (n.labels.headD "") n.id))))

/-- The vis.js node record built on lines 263–268 (the `title` tooltip, a JSON
dump of the properties, is not modelled). -/
structure VisNode where
  id : String
  label : String
  group : String
deriving Repr, DecidableEq

/-- Lines 255–269. -/
def toVisNode (n : GraphNode) : VisNode :=
  { id := n.id, label := nodeLabel n, group := jsOr (n.labels.headD "") "Node" }

/-- An edge of the `/api/graph` payload. -/
structure GraphEdge where
  id : String
  source : String
  target : String
  type : Option String
deriving Repr, DecidableEq

/-- The vis.js edge record of lines 273–279; `fromId`/`toId` embed the JS
`from`/`to` properties (`from` is a reserved word in Lean), and
`arrows := "to"` makes the edge directed. -/
structure VisEdge where
  id : String
  fromId : String
  toId : String
  label : String
  arrows : String
deriving Repr, DecidableEq

/-- Lines 273–279: `{ id, from: e.source, to: e.target, label: e.type || "", arrows: "to" }`. -/
def toVisEdge (e : GraphEdge) : VisEdge :=
  { id := e.id, fromId := e.source, toId := e.target,
    label := jsOr (e.type.getD "") "", arrows := "to" }

/-! ## Responses, event handlers and error paths -/

/-- A `/api/rows` response body (lines 129–139): `columns`, `rows`, and the
server-authoritative `page`, `page_size`, `total`. -/
structure RowsResponse where
  columns : List String
  rows : List (List (String × String))
  page : Int
  page_size : Nat
  total : Nat
deriving Repr, DecidableEq

/-- Lines 130–140 of the dashboard script: on a 2xx response `loadPage`
unconditionally resynchronises `page`, `pageSize`, `total` and `lastColumns`
from the response and re-renders the table. The handler records neither the
dataset nor the query the request was issued for, and compares nothing to the
current state before overwriting it. -/
def applyRowsResponse (s : BrowseState) (r : RowsResponse) : BrowseState :=
  { s with page := r.page, pageSize := r.page_size, total := r.total,
           lastColumns := r.columns, displayedRows := r.rows }

/-- An `/api/options` response body. -/
structure OptionsResponse where
  tickers : List String
  quarters : List String
deriving Repr, DecidableEq

/-- Lines 222–226: on a 2xx options response both `<select>`s are rebuilt from
scratch (`renderOptions` clears `innerHTML` and appends the placeholder, whose
value is `""`, then the fetched options) and the two selections are reset. -/
def applyOptionsResponse (s : BrowseState) (o : OptionsResponse) : BrowseState :=
  { s with tickerOptions := "" :: o.tickers, quarterOptions := "" :: o.quarters,
           ticker := "", quarter := "" }

/-- The user-triggered dashboard events (lines 32–64). -/
inductive BrowseAction where
  | datasetChange (ds : String)
  | applyFilters (ticker quarter search : String)
  | prevPage
  | nextPage
deriving Repr, DecidableEq

/-- The synchronous part of each dashboard event handler (lines 32–64),
returning the new state and the parameters of the `/api/rows` request the
handler issues, if any. `datasetChange` also starts `fetchOptions`, but that
function suspends at its `await fetch` (line 220) before resetting
`ticker`/`quarter` (lines 225–226), so the `loadPage()` call on line 36 builds
its query (line 122) from the not-yet-reset state. `loadPage` returns without
issuing a request when `state.dataset` is falsy (line 119), and the two
pagination handlers issue one only inside their guards (lines 52, 60). -/
def browseStep (s : BrowseState) : BrowseAction → BrowseState × Option (List (String × String))
  | .datasetChange ds =>
      let s1 := { s with dataset := ds, page := 1 }
      (s1, if s1.dataset = "" then none else some (buildQueryParams s1))
  | .applyFilters t q se =>
      let s1 := { s with ticker := t, quarter := q, search := se.trim, page := 1 }
      (s1, if s1.dataset = "" then none else some (buildQueryParams s1))
  | .prevPage =>
      if 1 < s.page then
        let s1 := { s with page := s.page - 1 }
        (s1, if s1.dataset = "" then none else some (buildQueryParams s1))
      else (s, none)
  | .nextPage =>
      if s.page < (computeTotalPages s.total s.pageSize : Int) then
        let s1 := { s with page := s.page + 1 }
        (s1, if s1.dataset = "" then none else some (buildQueryParams s1))
      else (s, none)

/-- Folding a sequence of user actions from the initial state. -/
def runBrowse (acts : List BrowseAction) : BrowseState :=
  acts.foldl (fun s a => (browseStep s a).1) initBrowseState

/-- JS `a || b` on an optional number whose value, when set, may still be 0
(falsy): models `callState.maxPage || 1` (calls.js, line 63). -/
def jsOrNat (a : Option Nat) (b : Nat) : Nat :=
  match a with
  | none => b
  | some n => if n = 0 then b else n

/-- The user-triggered `calls.js` events (lines 28–68). -/
inductive CallsAction where
  | apply (exchange sector pred retMin retMax sort : String)
  | reset
  | prevPage
  | nextPage
deriving Repr, DecidableEq

/-- The synchronous part of each `calls.js` handler (lines 28–68), returning
the new state and the parameters of the `/api/sample-calls` request issued, if
any. `apply` trims only the sector input (line 30); `reset` restores the
defaults of lines 40–52. -/
def callsStep (s : CallsState) : CallsAction → CallsState × Option (List (String × String))
  | .apply ex sec pr rmin rmax srt =>
      let s1 := { s with exchange := ex, sector := sec.trim, pred := pr,
                         retMin := rmin, retMax := rmax, sort := srt, page := 1 }
      (s1, some (loadCallsParams s1))
  | .reset =>
      let s1 := { s with exchange := "", sector := "", pred := "",
                         retMin := "", retMax := "", sort := "date", page := 1 }
      (s1, some (loadCallsParams s1))
  | .prevPage =>
      if 1 < s.page then
        let s1 := { s with page := s.page - 1 }
        (s1, some (loadCallsParams s1))
      else (s, none)
  | .nextPage =>
      if s.page < ((jsOrNat s.maxPage 1 : Nat) : Int) then
        let s1 := { s with page := s.page + 1 }
        (s1, some (loadCallsParams s1))
      else (s, none)

/-- Folding a sequence of user actions from the initial `calls.js` state. -/
def runCalls (acts : List CallsAction) : CallsState :=
  acts.foldl (fun s a => (callsStep s a).1) initCallsState

/-- A `/api/sample-calls` response body (calls.js, lines 88–92). -/
structure CallsResponse where
  rows : List (List (String × String))
  total : Nat
deriving Repr, DecidableEq

/-- Lines 89–93 of `calls.js`: the response handler renders the rows and
recomputes `maxPage = Math.max(1, Math.ceil(total / callState.pageSize))`;
it does not resynchronise `page`. -/
def applyCallsResponse (s : CallsState) (r : CallsResponse) : CallsState :=
  { s with maxPage := some (max 1 ⌈(r.total : ℚ) / (s.pageSize : ℚ)⌉₊) }

/-- How a failure is surfaced to the user. -/
inductive Notice where
  | alertMsg (msg : String)
  | consoleError (msg : String)
deriving Repr, DecidableEq

/-- The HTTP fetchers of the three scripts. -/
inductive Fetcher where
  | loadPage
  | fetchDatasets
  | loadGraph
  | fetchOptions
  | loadCalls
  | loadCall
deriving Repr, DecidableEq

/-- The notice produced by each fetcher's `catch` handler for a non-2xx
response with the given status and body text:
* `loadPage` (lines 124–126, 142): `alert(bodyText || "Request failed: <status>")`
  (the outer `err.message || "Failed to load data."` fallback never fires here
  because the thrown message is non-empty);
* `fetchDatasets` (lines 70–71, 76): generic message, body ignored;
* `loadGraph` (lines 206–208, 213): `alert(bodyText || "Graph request failed: <status>")`;
* `fetchOptions` (lines 221, 228): `console.error` only — no alert;
* `loadCalls` (calls.js, lines 87, 95): generic `"Failed: <status>"`, body ignored;
* `loadCall` (detail script, lines 18, 25): generic `"Not found: <status>"`, body ignored. -/
def httpErrorNotice : Fetcher → Nat → String → Notice
  | .loadPage, status, body =>
      .alertMsg (jsOr (jsOr body ("Request failed: " ++ toString status)) "Failed to load data.")
  | .fetchDatasets, status, _ =>
      .alertMsg (jsOr ("Failed to load datasets: " ++ toString status) "Could not load datasets.")
  | .loadGraph, status, body =>
      .alertMsg (jsOr (jsOr body ("Graph request failed: " ++ toString status)) "Could not load graph.")
  | .fetchOptions, _, _ => .consoleError "Failed to load options"
  | .loadCalls, status, _ =>
      .alertMsg (jsOr ("Failed: " ++ toString status) "Failed to load calls")
  | .loadCall, status, _ =>
      .alertMsg (jsOr ("Not found: " ++ toString status) "Failed to load call")

/-- Outcome of one `fetch`: a non-2xx response with its body text, a transport
failure with its error message, or a decoded 2xx body. -/
inductive FetchOutcome (α : Type) where
  | httpError (status : Nat) (body : String)
  | netError (msg : String)
  | ok (data : α)
deriving Repr, DecidableEq

/-- The continuation of `loadPage` (lines 121–143) after its `fetch` settles:
errors alert and touch nothing, a 2xx response is applied unconditionally. -/
def loadPageStep (s : BrowseState) : FetchOutcome RowsResponse → BrowseState × Option Notice
  | .httpError st body => (s, some (httpErrorNotice .loadPage st body))
  | .netError m => (s, some (.alertMsg (jsOr m "Failed to load data.")))
  | .ok r => (applyRowsResponse s r, none)

/-- The continuation of `fetchOptions` (lines 219–229) after its `fetch`
settles: any error only reaches `console.error`, so the selections are NOT
reset on failure; a 2xx response replaces the option lists and resets them. -/
def fetchOptionsStep (s : BrowseState) : FetchOutcome OptionsResponse → BrowseState × Option Notice
  | .httpError _ _ => (s, some (.consoleError "Failed to load options"))
  | .netError m => (s, some (.consoleError m))
  | .ok o => (applyOptionsResponse s o, none)

/-- The continuation of `loadCalls` (calls.js, lines 85–96) after its `fetch`
settles. -/
def loadCallsStep (s : CallsState) : FetchOutcome CallsResponse → CallsState × Option Notice
  | .httpError st body => (s, some (httpErrorNotice .loadCalls st body))
  | .netError m => (s, some (.alertMsg (jsOr m "Failed to load calls")))
  | .ok r => (applyCallsResponse s r, none)

/-- Claim C9 as stated: for every fetcher of the browsing and detail scripts,
a non-empty response body text becomes the user-visible error message of a
blocking alert. -/
def claimC9AsStated : Prop :=
  ∀ (f : Fetcher) (status : Nat) (body : String), body ≠ "" →
    httpErrorNotice f status body = .alertMsg body

/-! ## Baseline metrics view (dashboard script, lines 403–449) -/

/-- The row fields read by `renderBaselineDetails` (lines 419–425). `none`
models `undefined`/`null` (skipped by `add` and nullish for `??`), `some ""`
the present-but-empty string (skipped by `add` but NOT nullish). -/
structure BaselineRow where
  sentiment : Option String
  polarity : Option String
  positive_count : Option String
  negative_count : Option String
  label : Option String
  pred : Option String
  future_3bday_cum_return : Option String
  actual_return : Option String
deriving Repr, DecidableEq

/-- The candidate label/value pairs in the order `add` is called
(lines 435–441); the last candidate is
`row.future_3bday_cum_return ?? row.actual_return` (line 425). -/
def baselineCandidates (r : BaselineRow) : List (String × Option String) :=
  [("Sentiment", r.sentiment), ("Polarity", r.polarity),
   ("Positive count", r.positive_count), ("Negative count", r.negative_count),
   ("Label", r.label), ("Pred", r.pred),
   ("Future 3-day return / Actual return",
     match r.future_3bday_cum_return with
     | some v => some v
     | none => r.actual_return)]

/-- The `<li>` entries produced by `add` (lines 428–433): a candidate is kept
exactly when its value is neither `undefined`/`null` nor `""`. -/
def baselineEntries (r : BaselineRow) : List (String × String) :=
  (baselineCandidates r).filterMap fun p =>
    match p.2 with
    | some v => if v = "" then none else some (p.1, v)
    | none => none

/-- The three-way result of `renderBaselineDetails`: the dataset-level message
(line 415), the row-level message (line 444), or the populated list. -/
inductive BaselineView where
  | noBaselineCols
  | emptyOnRow
  | entries (es : List (String × String))
deriving Repr, DecidableEq

/-- Function `renderBaselineDetails` (lines 403–449): the marker test of lines 408–412
looks at the dataset's column list; with markers present, an empty `<ul>`
yields the row-level message, otherwise the list is shown. -/
def renderBaselineDetails (cols : List String) (r : BaselineRow) : BaselineView :=
  if cols.contains "sentiment" || cols.contains "positive_count" || cols.contains "polarity" then
    if baselineEntries r = [] then .emptyOnRow else .entries (baselineEntries r)
  else .noBaselineCols

/-! ## Concrete instances used by counterexamples and bug demonstrations -/

/-- Host `JSON.parse` behaviour on the probe inputs used below: the literal
`"null"` parses successfully to the JSON value `null`; the ill-formed inputs
(`"not valid json {"`, `""`) throw a `SyntaxError`. -/
def parseSample : String → Option JsonDecoded :=
  fun s => if s = "null" then some JsonDecoded.null else none

/-- An item whose `type` is the non-numeric string `"Other"`. -/
def c4ItemOther : FactItem := { type := "Other", metric := "m1", value := "", reason := "" }

/-- An item whose `type` is the canonical array-index string `"0"`. -/
def c4ItemZero : FactItem := { type := "0", metric := "m2", value := "", reason := "" }

/-- An item whose `type` names the inherited `Object.prototype` member
`toString`. -/
def c4ItemProto : FactItem := { type := "toString", metric := "m3", value := "", reason := "" }

/-- Items whose first-seen group keys are `["Other", "0"]`. -/
def c4Items : List FactItem := [c4ItemOther, c4ItemZero]

/-- The analysis block grouping `c4Items`. -/
def c4Analysis : Analysis := { items := c4Items, summary := "" }

/-- A dashboard state browsing dataset `earnings_a` with ticker filter
`AAPL` applied, about to switch datasets. -/
def c6State : BrowseState :=
  { initBrowseState with dataset := "earnings_a", ticker := "AAPL", page := 3, total := 100 }

/-- The in-flight `/api/rows` response for the old dataset `earnings_a`. -/
def c7RespA : RowsResponse :=
  { columns := ["ticker", "sentiment"], rows := [[("ticker", "AAPL"), ("sentiment", "0.4")]],
    page := 3, page_size := 25, total := 100 }

/-- The `/api/rows` response for the newly selected dataset `earnings_b`. -/
def c7RespB : RowsResponse :=
  { columns := ["quarter", "score"], rows := [[("quarter", "Q1"), ("score", "7")]],
    page := 1, page_size := 25, total := 12 }

/-- State of the dashboard after the user switched from `earnings_a` (with a
page request still in flight) to `earnings_b`: the synchronous part of the
change handler ran, then `earnings_b`'s response arrived and was rendered. -/
def c7StateShowingB : BrowseState :=
  applyRowsResponse (browseStep c6State (.datasetChange "earnings_b")).1 c7RespB

/-- A row none of whose baseline candidate fields is populated. -/
def c8RowEmpty : BaselineRow :=
  { sentiment := none, polarity := none, positive_count := none, negative_count := none,
    label := none, pred := none, future_3bday_cum_return := none, actual_return := none }

/-! ## Theorems -/

/-- For `0 < p`, the rational ceiling of `t / p` is the natural ceiling
division `(t + p - 1) / p`. -/
theorem natCeil_cast_div (t p : Nat) (hp : 0 < p) :
    ⌈(t : ℚ) / (p : ℚ)⌉₊ = (t + p - 1) / p := by
  rcases Nat.eq_zero_or_pos t with ht | ht
  · subst ht
    have h0 : (0 + p - 1) / p = 0 := Nat.div_eq_of_lt (by omega)
    rw [h0]
    simp
  · have hqp : (0 : ℚ) < p := by exact_mod_cast hp
    have hmod := Nat.div_add_mod (t + p - 1) p
    have hlt : (t + p - 1) % p < p := Nat.mod_lt _ hp
    set q := (t + p - 1) / p with hq
    set r := (t + p - 1) % p with hr
    have hq1 : 1 ≤ q := by
      rcases Nat.eq_zero_or_pos q with h0 | h1
      · rw [h0] at hmod
        omega
      · exact h1
    have hn : q ≠ 0 := by omega
    rw [Nat.ceil_eq_iff hn]
    have hmul : p * q = p * (q - 1) + p := by
      have hsucc : q - 1 + 1 = q := by omega
      calc p * q = p * (q - 1 + 1) := by rw [hsucc]
        _ = p * (q - 1) + p := Nat.mul_succ _ _
    constructor
    · rw [lt_div_iff₀ hqp]
      have hnat : (q - 1) * p < t := by
        rw [hmul] at hmod
        have hcomm : (q - 1) * p = p * (q - 1) := Nat.mul_comm _ _
        omega
      calc ((q - 1 : Nat) : ℚ) * p = (((q - 1) * p : Nat) : ℚ) := by push_cast; ring
        _ < t := by exact_mod_cast hnat
    · rw [div_le_iff₀ hqp]
      have hnat : t ≤ q * p := by
        have hcomm : q * p = p * q := Nat.mul_comm _ _
        rw [hcomm, hmul]
        omega
      exact_mod_cast hnat

/-- C1: for all `total ≥ 0` and `pageSize > 0`, `computeTotalPages` equals
`max(1, ceil(total / pageSize))` — written with natural ceiling division —
and `total = 0` yields one total page. -/
theorem computeTotalPages_spec (total pageSize : Nat) (hp : 0 < pageSize) :
    computeTotalPages total pageSize = max 1 ((total + pageSize - 1) / pageSize) ∧
      computeTotalPages 0 pageSize = 1 := by
  constructor
  · unfold computeTotalPages
    rw [natCeil_cast_div total pageSize hp]
  · unfold computeTotalPages
    norm_num

/-- Witness for C1 at `total = 5`, `pageSize = 2` (3 pages) and the zero-row
edge case. -/
theorem computeTotalPages_spec_witness :
    computeTotalPages 5 2 = max 1 ((5 + 2 - 1) / 2) ∧ computeTotalPages 0 2 = 1 :=
  computeTotalPages_spec 5 2 (by decide)

/-- Characterization of membership in the dashboard query parameter list. -/
theorem mem_buildQueryParams (s : BrowseState) (k v : String) :
    (k, v) ∈ buildQueryParams s ↔
      (k = "dataset" ∧ v = s.dataset) ∨ (k = "page" ∧ v = toString s.page) ∨
      (k = "page_size" ∧ v = toString s.pageSize) ∨
      (k = "ticker" ∧ s.ticker ≠ "" ∧ v = s.ticker) ∨
      (k = "quarter" ∧ s.quarter ≠ "" ∧ v = s.quarter) ∨
      (k = "search" ∧ s.search ≠ "" ∧ v = s.search) := by
  by_cases ht : s.ticker = "" <;> by_cases hq : s.quarter = "" <;> by_cases hs : s.search = "" <;>
    simp [buildQueryParams, ht, hq, hs]

/-- Characterization of membership in the `loadCalls` query parameter list. -/
theorem mem_loadCallsParams (s : CallsState) (k v : String) :
    (k, v) ∈ loadCallsParams s ↔
      (k = "page" ∧ v = toString s.page) ∨ (k = "page_size" ∧ v = toString s.pageSize) ∨
      (k = "sort_by" ∧ v = s.sort) ∨
      (k = "exchange" ∧ s.exchange ≠ "" ∧ v = s.exchange) ∨
      (k = "sector" ∧ s.sector ≠ "" ∧ v = s.sector) ∨
      (k = "pred_label" ∧ s.pred ≠ "" ∧ v = s.pred) ∨
      (k = "return_min" ∧ s.retMin ≠ "" ∧ v = s.retMin) ∨
      (k = "return_max" ∧ s.retMax ≠ "" ∧ v = s.retMax) := by
  by_cases h1 : s.exchange = "" <;> by_cases h2 : s.sector = "" <;> by_cases h3 : s.pred = "" <;>
    by_cases h4 : s.retMin = "" <;> by_cases h5 : s.retMax = "" <;>
      simp [loadCallsParams, h1, h2, h3, h4, h5]

/-- C2: every dashboard query always carries `dataset`, `page` and `page_size`;
`ticker`/`quarter`/`search` appear exactly when their filter value is
non-empty (so no filter key ever carries an empty value); the serialized
string URL-encodes every key and value; and the `loadCalls` query always
carries `page`, `page_size` and `sort_by` and omits its five filters exactly
when they are empty. -/
theorem buildQueryString_spec :
    (∀ s : BrowseState,
      ("dataset", s.dataset) ∈ buildQueryParams s ∧
      ("page", toString s.page) ∈ buildQueryParams s ∧
      ("page_size", toString s.pageSize) ∈ buildQueryParams s ∧
      (∀ v, ("ticker", v) ∈ buildQueryParams s ↔ s.ticker ≠ "" ∧ v = s.ticker) ∧
      (∀ v, ("quarter", v) ∈ buildQueryParams s ↔ s.quarter ≠ "" ∧ v = s.quarter) ∧
      (∀ v, ("search", v) ∈ buildQueryParams s ↔ s.search ≠ "" ∧ v = s.search) ∧
      (∀ k v, (k, v) ∈ buildQueryParams s → v = "" →
        k = "dataset" ∨ k = "page" ∨ k = "page_size") ∧
      buildQueryString s = String.intercalate "&"
        ((buildQueryParams s).map fun p => urlEncode p.1 ++ "=" ++ urlEncode p.2)) ∧
    (∀ c : CallsState,
      ("page", toString c.page) ∈ loadCallsParams c ∧
      ("page_size", toString c.pageSize) ∈ loadCallsParams c ∧
      ("sort_by", c.sort) ∈ loadCallsParams c ∧
      (∀ v, ("exchange", v) ∈ loadCallsParams c ↔ c.exchange ≠ "" ∧ v = c.exchange) ∧
      (∀ v, ("sector", v) ∈ loadCallsParams c ↔ c.sector ≠ "" ∧ v = c.sector) ∧
      (∀ v, ("pred_label", v) ∈ loadCallsParams c ↔ c.pred ≠ "" ∧ v = c.pred) ∧
      (∀ v, ("return_min", v) ∈ loadCallsParams c ↔ c.retMin ≠ "" ∧ v = c.retMin) ∧
      (∀ v, ("return_max", v) ∈ loadCallsParams c ↔ c.retMax ≠ "" ∧ v = c.retMax) ∧
      (∀ k v, (k, v) ∈ loadCallsParams c → v = "" →
        k = "page" ∨ k = "page_size" ∨ k = "sort_by") ∧
      loadCallsQueryString c = String.intercalate "&"
        ((loadCallsParams c).map fun p => urlEncode p.1 ++ "=" ++ urlEncode p.2)) := by
  constructor
  · intro s
    refine ⟨?_, ?_, ?_, ?_, ?_, ?_, ?_, rfl⟩
    · simp [mem_buildQueryParams]
    · simp [mem_buildQueryParams]
    · simp [mem_buildQueryParams]
    · intro v
      simp [mem_buildQueryParams]
    · intro v
      simp [mem_buildQueryParams]
    · intro v
      simp [mem_buildQueryParams]
    · intro k v hmem hv
      subst hv
      rcases (mem_buildQueryParams s k "").1 hmem with h | h | h | h | h | h <;> tauto
  · intro c
    refine ⟨?_, ?_, ?_, ?_, ?_, ?_, ?_, ?_, ?_, rfl⟩
    · simp [mem_loadCallsParams]
    · simp [mem_loadCallsParams]
    · simp [mem_loadCallsParams]
    · intro v
      simp [mem_loadCallsParams]
    · intro v
      simp [mem_loadCallsParams]
    · intro v
      simp [mem_loadCallsParams]
    · intro v
      simp [mem_loadCallsParams]
    · intro v
      simp [mem_loadCallsParams]
    · intro k v hmem hv
      subst hv
      rcases (mem_loadCallsParams c k "").1 hmem with h | h | h | h | h | h | h | h <;> tauto

/-- Witness for C2: the filters-empty state omits all three filter keys and
serializes with URL-encoding (the applied ticker `A&B` encodes as `A%26B`). -/
theorem buildQueryString_spec_witness :
    (("dataset", "earnings_a") ∈
        buildQueryParams { initBrowseState with dataset := "earnings_a", ticker := "A&B" } ∧
      ∀ v, ("ticker", v) ∈
          buildQueryParams { initBrowseState with dataset := "earnings_a", ticker := "A&B" } ↔
        ("A&B" : String) ≠ "" ∧ v = "A&B") ∧
    buildQueryString { initBrowseState with dataset := "earnings_a", ticker := "A&B" } =
      "dataset=earnings_a&page=1&page_size=25&ticker=A%26B" := by
  constructor
  · exact ⟨(buildQueryString_spec.1 _).1, (buildQueryString_spec.1 _).2.2.2.1⟩
  · decide

/-- C5: the derived node label is the first non-empty among
`properties.ticker`, `properties.symbol`, `properties.metric`,
`properties.quarter` and the first label tag, falling back to the raw id
(in particular ticker `AAPL` beats symbol `A`, and a node with no matching
property and no labels labels as its id); every derived edge maps
`source`/`target` to `from`/`to`, is directed (`arrows = "to"`), and its label
is its `type`, defaulting to the empty string when `type` is absent. -/
theorem renderGraph_spec :
    (∀ n : GraphNode,
      nodeLabel n =
        (([propOr n "ticker", propOr n "symbol", propOr n "metric", propOr n "quarter",
            n.labels.headD ""].find? (fun s => s != "")).getD n.id) ∧
      (toVisNode n).id = n.id ∧ (toVisNode n).label = nodeLabel n) ∧
    nodeLabel { id := "n1", labels := [], props := [("ticker", "AAPL"), ("symbol", "A")] } =
      "AAPL" ∧
    (∀ n : GraphNode, n.props = [] → n.labels = [] → nodeLabel n = n.id) ∧
    (∀ e : GraphEdge,
      (toVisEdge e).fromId = e.source ∧ (toVisEdge e).toId = e.target ∧
      (toVisEdge e).arrows = "to" ∧ (toVisEdge e).id = e.id ∧
      (e.type = none → (toVisEdge e).label = "") ∧
      (∀ ty, e.type = some ty → (toVisEdge e).label = ty)) := by
  refine ⟨?_, by decide, ?_, ?_⟩
  · intro n
    refine ⟨?_, rfl, rfl⟩
    by_cases h1 : propOr n "ticker" = "" <;> by_cases h2 : propOr n "symbol" = "" <;>
      by_cases h3 : propOr n "metric" = "" <;> by_cases h4 : propOr n "quarter" = "" <;>
        by_cases h5 : n.labels.headD "" = "" <;>
          simp [nodeLabel, jsOr, h1, h2, h3, h4, h5] <;> (try (split <;> simp))
  · intro n hp hl
    simp [nodeLabel, jsOr, propOr, hp, hl]
  · intro e
    refine ⟨rfl, rfl, rfl, rfl, ?_, ?_⟩
    · intro h
      simp [toVisEdge, jsOr, h]
    · intro ty h
      rcases eq_or_ne ty "" with h0 | h0 <;> simp [toVisEdge, jsOr, h, h0]

/-- Witness for C5 at a node with no matching property and no labels, and at
an edge with an absent type. -/
theorem renderGraph_spec_witness :
    nodeLabel { id := "raw-7", labels := [], props := [] } = "raw-7" ∧
    (toVisEdge { id := "e1", source := "a", target := "b", type := none }).label = "" :=
  ⟨(renderGraph_spec.2.2.1 _ rfl rfl),
   ((renderGraph_spec.2.2.2 { id := "e1", source := "a", target := "b", type := none }).2.2.2.2.1 rfl)⟩

/-- C8: the baseline view is three-way — no marker column (`sentiment`,
`positive_count`, `polarity`) in the dataset's column list gives the
dataset-level message; markers present but every candidate field on the row
absent/null/empty gives the distinct row-level message; otherwise exactly the
present-and-non-empty candidates are listed. -/
theorem renderBaselineDetails_spec (cols : List String) (r : BaselineRow) :
    (renderBaselineDetails cols r = .noBaselineCols ↔
      ¬("sentiment" ∈ cols ∨ "positive_count" ∈ cols ∨ "polarity" ∈ cols)) ∧
    (("sentiment" ∈ cols ∨ "positive_count" ∈ cols ∨ "polarity" ∈ cols) →
      (renderBaselineDetails cols r = .emptyOnRow ↔
        ∀ p ∈ baselineCandidates r, p.2 = none ∨ p.2 = some "")) ∧
    (∀ es, renderBaselineDetails cols r = .entries es →
      ∀ nm v, (nm, v) ∈ es ↔ ((nm, some v) ∈ baselineCandidates r ∧ v ≠ "")) := by
  have hmarker : (cols.contains "sentiment" || cols.contains "positive_count" ||
      cols.contains "polarity") = true ↔
      ("sentiment" ∈ cols ∨ "positive_count" ∈ cols ∨ "polarity" ∈ cols) := by
    simp
    tauto
  have hentries : ∀ nm v, (nm, v) ∈ baselineEntries r ↔
      ((nm, some v) ∈ baselineCandidates r ∧ v ≠ "") := by
    intro nm v
    unfold baselineEntries
    rw [List.mem_filterMap]
    constructor
    · rintro ⟨p, hp, hf⟩
      rcases p with ⟨n0, v0⟩
      rcases v0 with _ | v0
      · simp at hf
      · by_cases h0 : v0 = ""
        · simp [h0] at hf
        · simp [h0] at hf
          rcases hf with ⟨rfl, rfl⟩
          exact ⟨hp, h0⟩
    · rintro ⟨hp, hv⟩
      exact ⟨(nm, some v), hp, by simp [hv]⟩
  have hempty : baselineEntries r = [] ↔
      ∀ p ∈ baselineCandidates r, p.2 = none ∨ p.2 = some "" := by
    unfold baselineEntries
    rw [List.filterMap_eq_nil_iff]
    constructor
    · intro h p hp
      have := h p hp
      rcases p with ⟨n0, v0⟩
      rcases v0 with _ | v0
      · exact Or.inl rfl
      · by_cases h0 : v0 = ""
        · exact Or.inr (by rw [h0])
        · simp [h0] at this
    · intro h p hp
      rcases h p hp with h0 | h0 <;> simp [h0]
  constructor
  · unfold renderBaselineDetails
    by_cases hm : ("sentiment" ∈ cols ∨ "positive_count" ∈ cols ∨ "polarity" ∈ cols)
    · rw [if_pos (hmarker.2 hm)]
      split <;> simp [hm]
    · rw [if_neg (fun hb => hm (hmarker.1 hb))]
      simp [hm]
  constructor
  · intro hm
    unfold renderBaselineDetails
    rw [if_pos (hmarker.2 hm)]
    rw [← hempty]
    split <;> simp_all
  · intro es hes nm v
    unfold renderBaselineDetails at hes
    split at hes
    · split at hes
      · exact absurd hes (by simp)
      · injection hes with h
        subst h
        exact hentries nm v
    · exact absurd hes (by simp)

/-- Witness for C8: a dataset with a `sentiment` column but a row with every
candidate field absent yields the row-level "empty on this row" state, which
is distinct from the dataset-level state. -/
theorem renderBaselineDetails_spec_witness :
    (renderBaselineDetails ["sentiment"] c8RowEmpty = .emptyOnRow ↔
      ∀ p ∈ baselineCandidates c8RowEmpty, p.2 = none ∨ p.2 = some "") ∧
    renderBaselineDetails ["sentiment"] c8RowEmpty = .emptyOnRow ∧
    renderBaselineDetails ["quarter"] c8RowEmpty = .noBaselineCols :=
  ⟨(renderBaselineDetails_spec ["sentiment"] c8RowEmpty).2.1 (Or.inl (by decide)),
   by decide, by decide⟩

/-- Bug demonstration for C3: the `try` of lines 323–329 covers only
`JSON.parse`; the projections of lines 331–332 run outside it. For the field
value `"null"` — non-empty, hence truthy at line 318 — `JSON.parse("null")`
succeeds returning `null`, and the property read `parsed.items` at line 331
throws an uncaught TypeError that escapes `renderAgentDetails`, contradicting
the claim (and spec) that the decoder never propagates an exception. The
terminal states behave as described elsewhere: an absent field and the
falsy empty string yield "no analysis" (the latter, which `JSON.parse` would
reject, short-circuits before parsing and so never reaches "could not
parse"), and a non-empty unparseable string yields "could not parse". -/
theorem renderAgentDetails_null_throw_bug :
    parseSample "null" = some JsonDecoded.null ∧
    renderAgentDetails parseSample (.strField "null") = .thrown ∧
    AgentView.thrown ≠ AgentView.noAnalysis ∧
    AgentView.thrown ≠ AgentView.parseError ∧
    (∀ blocks, AgentView.thrown ≠ AgentView.content blocks) ∧
    renderAgentDetails parseSample .absent = .noAnalysis ∧
    renderAgentDetails parseSample (.strField "") = .noAnalysis ∧
    renderAgentDetails parseSample (.strField "not valid json \x7b") = .parseError := by
  refine ⟨rfl, rfl, by decide, by decide, fun blocks h => AgentView.noConfusion h, rfl, rfl,
    by decide⟩

/-- A string with a non-empty literal prefix is non-empty. -/
theorem append_ne_empty (p t : String) (hp : p.length ≠ 0) : p ++ t ≠ "" := by
  intro h
  have hlen := congrArg String.length h
  rw [String.length_append] at hlen
  simp at hlen
  omega

/-- Counterexample to C9 as stated: a non-empty body text is NOT the
user-visible message of every failed request — `loadCalls` replies with the
generic `"Failed: <status>"` no matter the body, and a `fetchOptions` failure
never reaches an alert at all (it is only logged to the console). -/
theorem httpErrorNotice_counterexample :
    httpErrorNotice .loadCalls 500 "boom" = .alertMsg "Failed: 500" ∧
    httpErrorNotice .loadCalls 500 "boom" ≠ .alertMsg "boom" ∧
    httpErrorNotice .fetchOptions 500 "boom" = .consoleError "Failed to load options" ∧
    ¬ claimC9AsStated := by
  refine ⟨by decide, by decide, by decide, fun h => ?_⟩
  have hc := h .loadCalls 500 "boom" (by decide)
  exact absurd hc (by decide)

/-- C9 (amended): `loadPage` and `loadGraph` alert the body text when it is
non-empty and a generic action+status message otherwise; `fetchDatasets`,
`loadCalls` and `loadCall` always alert their generic action+status message,
ignoring the body; `fetchOptions` failures only reach `console.error`; and
every error outcome (non-2xx or transport failure) leaves the client state
unchanged. -/
theorem httpErrorNotice_spec :
    (∀ (st : Nat) (body : String), body ≠ "" →
      httpErrorNotice .loadPage st body = .alertMsg body ∧
      httpErrorNotice .loadGraph st body = .alertMsg body) ∧
    (∀ st : Nat,
      httpErrorNotice .loadPage st "" = .alertMsg ("Request failed: " ++ toString st) ∧
      httpErrorNotice .loadGraph st "" = .alertMsg ("Graph request failed: " ++ toString st) ∧
      ∀ body : String,
        httpErrorNotice .fetchDatasets st body =
          .alertMsg ("Failed to load datasets: " ++ toString st) ∧
        httpErrorNotice .loadCalls st body = .alertMsg ("Failed: " ++ toString st) ∧
        httpErrorNotice .loadCall st body = .alertMsg ("Not found: " ++ toString st) ∧
        httpErrorNotice .fetchOptions st body = .consoleError "Failed to load options") ∧
    (∀ (s : BrowseState) (st : Nat) (body : String),
      (loadPageStep s (.httpError st body)).1 = s ∧
      (fetchOptionsStep s (.httpError st body)).1 = s) ∧
    (∀ (s : BrowseState) (m : String),
      (loadPageStep s (.netError m)).1 = s ∧ (fetchOptionsStep s (.netError m)).1 = s) ∧
    (∀ (c : CallsState) (st : Nat) (body : String),
      (loadCallsStep c (.httpError st body)).1 = c ∧
      ∀ m : String, (loadCallsStep c (.netError m)).1 = c) := by
  refine ⟨?_, ?_, ?_, ?_, ?_⟩
  · intro st body hb
    constructor
    · show Notice.alertMsg (jsOr (jsOr body _) _) = _
      rw [show jsOr body ("Request failed: " ++ toString st) = body from if_neg hb]
      rw [show jsOr body "Failed to load data." = body from if_neg hb]
    · show Notice.alertMsg (jsOr (jsOr body _) _) = _
      rw [show jsOr body ("Graph request failed: " ++ toString st) = body from if_neg hb]
      rw [show jsOr body "Could not load graph." = body from if_neg hb]
  · intro st
    have hreq : ("Request failed: " ++ toString st : String) ≠ "" :=
      append_ne_empty _ _ (by decide)
    have hgr : ("Graph request failed: " ++ toString st : String) ≠ "" :=
      append_ne_empty _ _ (by decide)
    have hds : ("Failed to load datasets: " ++ toString st : String) ≠ "" :=
      append_ne_empty _ _ (by decide)
    have hfa : ("Failed: " ++ toString st : String) ≠ "" :=
      append_ne_empty _ _ (by decide)
    have hnf : ("Not found: " ++ toString st : String) ≠ "" :=
      append_ne_empty _ _ (by decide)
    refine ⟨?_, ?_, ?_⟩
    · show Notice.alertMsg (jsOr (jsOr "" _) _) = _
      rw [show jsOr "" ("Request failed: " ++ toString st) =
        ("Request failed: " ++ toString st) from if_pos rfl]
      rw [show jsOr ("Request failed: " ++ toString st) "Failed to load data." =
        ("Request failed: " ++ toString st) from if_neg hreq]
    · show Notice.alertMsg (jsOr (jsOr "" _) _) = _
      rw [show jsOr "" ("Graph request failed: " ++ toString st) =
        ("Graph request failed: " ++ toString st) from if_pos rfl]
      rw [show jsOr ("Graph request failed: " ++ toString st) "Could not load graph." =
        ("Graph request failed: " ++ toString st) from if_neg hgr]
    · intro body
      refine ⟨?_, ?_, ?_, rfl⟩
      · show Notice.alertMsg (jsOr _ _) = _
        rw [show jsOr ("Failed to load datasets: " ++ toString st) "Could not load datasets." =
          ("Failed to load datasets: " ++ toString st) from if_neg hds]
      · show Notice.alertMsg (jsOr _ _) = _
        rw [show jsOr ("Failed: " ++ toString st) "Failed to load calls" =
          ("Failed: " ++ toString st) from if_neg hfa]
      · show Notice.alertMsg (jsOr _ _) = _
        rw [show jsOr ("Not found: " ++ toString st) "Failed to load call" =
          ("Not found: " ++ toString st) from if_neg hnf]
  · exact fun s st body => ⟨rfl, rfl⟩
  · exact fun s m => ⟨rfl, rfl⟩
  · exact fun c st body => ⟨rfl, fun m => rfl⟩

/-- Witness for C9 (amended): at status 500 with body `boom`, `loadPage`
alerts the body text while `loadCalls` alerts its generic message, and an
erroring `loadPage` leaves the initial state unchanged. -/
theorem httpErrorNotice_spec_witness :
    httpErrorNotice .loadPage 500 "boom" = .alertMsg "boom" ∧
    httpErrorNotice .loadCalls 500 "boom" = .alertMsg ("Failed: " ++ toString 500) ∧
    (loadPageStep initBrowseState (.httpError 500 "boom")).1 = initBrowseState :=
  ⟨(httpErrorNotice_spec.1 500 "boom" (by decide)).1,
   ((httpErrorNotice_spec.2.1 500).2.2 "boom").2.1,
   (httpErrorNotice_spec.2.2.1 initBrowseState 500 "boom").1⟩

/-- Bug demonstration for C6: the dataset-change handler (lines 32–37) sets
the new dataset and calls `fetchOptions()` then `loadPage()`, but
`fetchOptions` only resets `ticker`/`quarter` after its response arrives
(lines 225–226), which is strictly after the synchronous `loadPage()` call
has already built its query (line 122). Hence the first query issued against
the new dataset still carries the previous dataset's ticker selection:
switching from `earnings_a` (ticker `AAPL` applied) to `earnings_b` issues
`dataset=earnings_b&...&ticker=AAPL`. The success path does reset afterwards
(last conjunct), and on an options-fetch failure no reset ever happens
(`fetchOptionsStep` error cases, see `httpErrorNotice_spec`). -/
theorem datasetChange_stale_ticker_bug :
    c6State.ticker = "AAPL" ∧
    (browseStep c6State (.datasetChange "earnings_b")).1.dataset = "earnings_b" ∧
    (browseStep c6State (.datasetChange "earnings_b")).2 =
      some (buildQueryParams (browseStep c6State (.datasetChange "earnings_b")).1) ∧
    ("ticker", "AAPL") ∈ buildQueryParams (browseStep c6State (.datasetChange "earnings_b")).1 ∧
    ("dataset", "earnings_b") ∈
      buildQueryParams (browseStep c6State (.datasetChange "earnings_b")).1 ∧
    (applyOptionsResponse (browseStep c6State (.datasetChange "earnings_b")).1
        { tickers := ["MSFT"], quarters := ["Q1"] }).ticker = "" ∧
    (applyOptionsResponse (browseStep c6State (.datasetChange "earnings_b")).1
        { tickers := ["MSFT"], quarters := ["Q1"] }).tickerOptions = ["", "MSFT"] := by
  refine ⟨rfl, rfl, rfl, by decide, by decide, rfl, rfl⟩

/-- Bug demonstration for C7: `loadPage`'s response handler (lines 130–140)
applies any 2xx response unconditionally — there is no dataset or generation
tag to compare against. In the trace below the user browses `earnings_a` with
a page request in flight, switches to `earnings_b`, and `earnings_b`'s
response is rendered; when the stale `earnings_a` response then arrives it
overwrites the displayed columns, rows, and pagination fields of the
now-current `earnings_b` view. -/
theorem loadPage_stale_response_bug :
    c7StateShowingB.dataset = "earnings_b" ∧
    c7StateShowingB.lastColumns = c7RespB.columns ∧
    c7StateShowingB.displayedRows = c7RespB.rows ∧
    (applyRowsResponse c7StateShowingB c7RespA).dataset = "earnings_b" ∧
    (applyRowsResponse c7StateShowingB c7RespA).lastColumns = c7RespA.columns ∧
    (applyRowsResponse c7StateShowingB c7RespA).displayedRows = c7RespA.rows ∧
    (applyRowsResponse c7StateShowingB c7RespA).total = c7RespA.total ∧
    (applyRowsResponse c7StateShowingB c7RespA).page = c7RespA.page ∧
    c7RespA.columns ≠ c7RespB.columns ∧
    c7RespA.rows ≠ c7RespB.rows := by
  refine ⟨rfl, rfl, rfl, rfl, rfl, rfl, rfl, rfl, by decide, by decide⟩

/-- Every dashboard query carries the page of the state it was built from. -/
theorem page_mem_buildQueryParams (s : BrowseState) :
    ("page", toString s.page) ∈ buildQueryParams s :=
  (mem_buildQueryParams s _ _).2 (Or.inr (Or.inl ⟨rfl, rfl⟩))

/-- Every `loadCalls` query carries the page of the state it was built from. -/
theorem page_mem_loadCallsParams (c : CallsState) :
    ("page", toString c.page) ∈ loadCallsParams c :=
  (mem_loadCallsParams c _ _).2 (Or.inl ⟨rfl, rfl⟩)

/-- One dashboard user action preserves `page ≥ 1`, and any request it issues
carries the new page. -/
theorem browseStep_page_inv (s : BrowseState) (a : BrowseAction) (h : 1 ≤ s.page) :
    1 ≤ (browseStep s a).1.page ∧
    ∀ q, (browseStep s a).2 = some q → ("page", toString (browseStep s a).1.page) ∈ q := by
  cases a with
  | datasetChange ds =>
      refine ⟨by simp [browseStep], ?_⟩
      intro q hq
      by_cases hd : ds = ""
      · simp [browseStep, hd] at hq
      · simp [browseStep, hd] at hq ⊢
        rw [← hq]
        exact page_mem_buildQueryParams _
  | applyFilters t qv se =>
      refine ⟨by simp [browseStep], ?_⟩
      intro q hq
      by_cases hd : s.dataset = ""
      · simp [browseStep, hd] at hq
      · simp [browseStep, hd] at hq ⊢
        rw [← hq]
        exact page_mem_buildQueryParams _
  | prevPage =>
      by_cases hp : 1 < s.page
      · refine ⟨?_, ?_⟩
        · simp [browseStep, hp]
          omega
        · intro q hq
          by_cases hd : s.dataset = ""
          · simp [browseStep, hp, hd] at hq
          · simp [browseStep, hp, hd] at hq ⊢
            rw [← hq]
            exact page_mem_buildQueryParams _
      · refine ⟨?_, ?_⟩
        · simp [browseStep, hp]
          exact h
        · intro q hq
          simp [browseStep, hp] at hq
  | nextPage =>
      by_cases hp : s.page < (computeTotalPages s.total s.pageSize : Int)
      · refine ⟨?_, ?_⟩
        · simp [browseStep, hp]
          omega
        · intro q hq
          by_cases hd : s.dataset = ""
          · simp [browseStep, hp, hd] at hq
          · simp [browseStep, hp, hd] at hq ⊢
            rw [← hq]
            exact page_mem_buildQueryParams _
      · refine ⟨?_, ?_⟩
        · simp [browseStep, hp]
          exact h
        · intro q hq
          simp [browseStep, hp] at hq

/-- One `calls.js` user action preserves `page ≥ 1`, and any request it
issues carries the new page. -/
theorem callsStep_page_inv (c : CallsState) (a : CallsAction) (h : 1 ≤ c.page) :
    1 ≤ (callsStep c a).1.page ∧
    ∀ q, (callsStep c a).2 = some q → ("page", toString (callsStep c a).1.page) ∈ q := by
  cases a with
  | apply ex sec pr rmin rmax srt =>
      refine ⟨by simp [callsStep], ?_⟩
      intro q hq
      simp [callsStep] at hq ⊢
      rw [← hq]
      exact page_mem_loadCallsParams _
  | reset =>
      refine ⟨by simp [callsStep], ?_⟩
      intro q hq
      simp [callsStep] at hq ⊢
      rw [← hq]
      exact page_mem_loadCallsParams _
  | prevPage =>
      by_cases hp : 1 < c.page
      · refine ⟨?_, ?_⟩
        · simp [callsStep, hp]
          omega
        · intro q hq
          simp [callsStep, hp] at hq ⊢
          rw [← hq]
          exact page_mem_loadCallsParams _
      · refine ⟨?_, ?_⟩
        · simp [callsStep, hp]
          exact h
        · intro q hq
          simp [callsStep, hp] at hq
  | nextPage =>
      by_cases hp : c.page < ((jsOrNat c.maxPage 1 : Nat) : Int)
      · refine ⟨?_, ?_⟩
        · simp [callsStep, hp]
          omega
        · intro q hq
          simp [callsStep, hp] at hq ⊢
          rw [← hq]
          exact page_mem_loadCallsParams _
      · refine ⟨?_, ?_⟩
        · simp [callsStep, hp]
          exact h
        · intro q hq
          simp [callsStep, hp] at hq

/-- The invariant `page ≥ 1` is preserved along any sequence of dashboard user actions. -/
theorem foldl_browseStep_page_inv (acts : List BrowseAction) :
    ∀ s : BrowseState, 1 ≤ s.page →
      1 ≤ (acts.foldl (fun s a => (browseStep s a).1) s).page := by
  induction acts with
  | nil => exact fun s h => h
  | cons a rest ih => exact fun s h => ih _ (browseStep_page_inv s a h).1

/-- The invariant `page ≥ 1` is preserved along any sequence of `calls.js` user actions. -/
theorem foldl_callsStep_page_inv (acts : List CallsAction) :
    ∀ c : CallsState, 1 ≤ c.page →
      1 ≤ (acts.foldl (fun s a => (callsStep s a).1) c).page := by
  induction acts with
  | nil => exact fun c h => h
  | cons a rest ih => exact fun c h => ih _ (callsStep_page_inv c a h).1

/-- C10: in both browsing scripts the page number is 1 initially, stays ≥ 1
across every user-triggered transition (dataset change, filter apply/reset,
previous/next page), and every request issued by such a transition carries a
page ≥ 1. -/
theorem page_ge_one_spec :
    (1 ≤ initBrowseState.page ∧ 1 ≤ initCallsState.page) ∧
    (∀ (s : BrowseState) (a : BrowseAction), 1 ≤ s.page →
      1 ≤ (browseStep s a).1.page ∧
      ∀ q, (browseStep s a).2 = some q →
        ("page", toString (browseStep s a).1.page) ∈ q ∧ 1 ≤ (browseStep s a).1.page) ∧
    (∀ (c : CallsState) (a : CallsAction), 1 ≤ c.page →
      1 ≤ (callsStep c a).1.page ∧
      ∀ q, (callsStep c a).2 = some q →
        ("page", toString (callsStep c a).1.page) ∈ q ∧ 1 ≤ (callsStep c a).1.page) ∧
    (∀ acts, 1 ≤ (runBrowse acts).page) ∧
    (∀ acts, 1 ≤ (runCalls acts).page) := by
  refine ⟨⟨by decide, by decide⟩, ?_, ?_, ?_, ?_⟩
  · intro s a h
    obtain ⟨h1, h2⟩ := browseStep_page_inv s a h
    exact ⟨h1, fun q hq => ⟨h2 q hq, h1⟩⟩
  · intro c a h
    obtain ⟨h1, h2⟩ := callsStep_page_inv c a h
    exact ⟨h1, fun q hq => ⟨h2 q hq, h1⟩⟩
  · exact fun acts => foldl_browseStep_page_inv acts initBrowseState (by decide)
  · exact fun acts => foldl_callsStep_page_inv acts initCallsState (by decide)

/-- Witness for C10: from a state on page 2 of `earnings_a`, the previous-page
action keeps the page at 1. -/
theorem page_ge_one_spec_witness :
    1 ≤ (browseStep { initBrowseState with dataset := "earnings_a", page := 2 }
        BrowseAction.prevPage).1.page :=
  (page_ge_one_spec.2.1 { initBrowseState with dataset := "earnings_a", page := 2 }
    BrowseAction.prevPage (by decide)).1

/-- Membership in `insertByIndex` only adds the inserted bucket. -/
theorem mem_insertByIndex (p : String × List FactItem) :
    ∀ (l : List (String × List FactItem)) (q : String × List FactItem),
      q ∈ insertByIndex p l ↔ q = p ∨ q ∈ l := by
  intro l
  induction l with
  | nil => intro q; simp [insertByIndex]
  | cons x rest ih =>
      intro q
      unfold insertByIndex
      split
      · simp
      · simp only [List.mem_cons, ih q]
        tauto

/-- Membership through the numeric-key insertion sort. -/
theorem mem_foldr_insertByIndex (l : List (String × List FactItem)) :
    ∀ (acc : List (String × List FactItem)) (q : String × List FactItem),
      q ∈ l.foldr insertByIndex acc ↔ q ∈ l ∨ q ∈ acc := by
  induction l with
  | nil => intro acc q; simp
  | cons x rest ih =>
      intro acc q
      simp only [List.foldr_cons, mem_insertByIndex, ih, List.mem_cons]
      tauto

/-- The `Object.entries` model reorders the property table but keeps the same entries. -/
theorem mem_jsEntries (gs : List (String × List FactItem)) (q : String × List FactItem) :
    q ∈ jsEntries gs ↔ q ∈ gs := by
  unfold jsEntries
  rw [List.mem_append, mem_foldr_insertByIndex]
  simp only [List.mem_filter, List.not_mem_nil, or_false]
  constructor
  · rintro (⟨h, _⟩ | ⟨h, _⟩) <;> exact h
  · intro h
    by_cases hidx : isArrayIndex q.1
    · exact Or.inl ⟨h, hidx⟩
    · exact Or.inr ⟨h, by simp [hidx]⟩

/-- The insertion sort adds one bucket to the length. -/
theorem length_insertByIndex (p : String × List FactItem) :
    ∀ l : List (String × List FactItem), (insertByIndex p l).length = l.length + 1 := by
  intro l
  induction l with
  | nil => simp [insertByIndex]
  | cons x rest ih =>
      unfold insertByIndex
      split
      · simp
      · simp [ih]

/-- Length of the numeric-key insertion sort. -/
theorem length_foldr_insertByIndex (l acc : List (String × List FactItem)) :
    (l.foldr insertByIndex acc).length = l.length + acc.length := by
  induction l with
  | nil => simp
  | cons x rest ih =>
      simp only [List.foldr_cons, length_insertByIndex, ih, List.length_cons]
      omega

/-- A Boolean filter and its complement partition a list's length. -/
theorem filter_partition_length {α : Type} (p : α → Bool) (l : List α) :
    (l.filter p).length + (l.filter fun x => !p x).length = l.length := by
  induction l with
  | nil => simp
  | cons x rest ih =>
      cases hx : p x <;> simp [List.filter_cons, hx] <;> omega

/-- The `Object.entries` model keeps the number of buckets. -/
theorem length_jsEntries (gs : List (String × List FactItem)) :
    (jsEntries gs).length = gs.length := by
  unfold jsEntries
  rw [List.length_append, length_foldr_insertByIndex]
  simp only [List.length_nil, Nat.add_zero]
  exact filter_partition_length _ gs

/-- When no bucket key is an array index, `Object.entries` preserves the
insertion order exactly. -/
theorem jsEntries_of_no_index (gs : List (String × List FactItem))
    (h : ∀ p ∈ gs, isArrayIndex p.1 = false) : jsEntries gs = gs := by
  unfold jsEntries
  have h1 : gs.filter (fun p => isArrayIndex p.1) = [] :=
    List.filter_eq_nil_iff.2 (fun p hp => by simp [h p hp])
  have h2 : gs.filter (fun p => !isArrayIndex p.1) = gs :=
    List.filter_eq_self.2 (fun p hp => by simp [h p hp])
  rw [h1, h2]
  rfl

/-- The key list after one reference insertion: unchanged for an existing
key, extended at the end for a fresh key. -/
theorem insertBucket_keys (k : String) (it : FactItem) :
    ∀ gs : List (String × List FactItem),
      (insertBucket gs k it).map Prod.fst =
        if k ∈ gs.map Prod.fst then gs.map Prod.fst else gs.map Prod.fst ++ [k] := by
  intro gs
  induction gs with
  | nil => simp [insertBucket]
  | cons x rest ih =>
      rcases x with ⟨k0, l0⟩
      by_cases hk : k0 = k
      · simp [insertBucket, hk]
      · have hk2 : ¬(k = k0) := fun h => hk h.symm
        by_cases hmem : k ∈ rest.map Prod.fst <;>
          simp [insertBucket, hk, hk2, hmem, ih]

/-- The reference table of an extended item list performs one more insertion. -/
theorem bucketTable_append (items : List FactItem) (it : FactItem) :
    bucketTable (items ++ [it]) = insertBucket (bucketTable items) (jsGroupKey it) it := by
  simp [bucketTable, List.foldl_append]

/-- First-seen keys of an extended item list. -/
theorem firstSeenKeys_append (items : List FactItem) (it : FactItem) :
    firstSeenKeys (items ++ [it]) =
      if jsGroupKey it ∈ firstSeenKeys items then firstSeenKeys items
      else firstSeenKeys items ++ [jsGroupKey it] := by
  simp [firstSeenKeys, List.foldl_append]

/-- The reference bucket table lists its keys in first-seen order. -/
theorem bucketTable_keys (items : List FactItem) :
    (bucketTable items).map Prod.fst = firstSeenKeys items := by
  induction items using List.reverseRecOn with
  | nil => rfl
  | append_singleton xs x ih =>
      rw [bucketTable_append, insertBucket_keys, firstSeenKeys_append, ih]

/-- The reference bucket table never duplicates a key. -/
theorem bucketTable_keys_nodup (items : List FactItem) :
    ((bucketTable items).map Prod.fst).Nodup := by
  induction items using List.reverseRecOn with
  | nil => simp [bucketTable]
  | append_singleton xs x ih =>
      rw [bucketTable_append, insertBucket_keys]
      by_cases hmem : jsGroupKey x ∈ (bucketTable xs).map Prod.fst
      · rw [if_pos hmem]
        exact ih
      · rw [if_neg hmem]
        simp [List.nodup_append, ih, hmem]

/-- Bucket contents after one reference insertion, relative to a bucket
characterization `f` of the table so far. -/
theorem insertBucket_char :
    ∀ (gs : List (String × List FactItem)) (f : String → List FactItem),
      (gs.map Prod.fst).Nodup →
      (∀ t l, (t, l) ∈ gs ↔ (l = f t ∧ l ≠ [])) →
      ∀ (k : String) (it : FactItem) (t : String) (l : List FactItem),
        (t, l) ∈ insertBucket gs k it ↔
          (l = (if t = k then f t ++ [it] else f t) ∧ l ≠ []) := by
  intro gs
  induction gs with
  | nil =>
      intro f hnd hf k it t l
      have hft : ∀ u, f u = [] := fun u => by
        by_contra hne
        exact absurd ((hf u (f u)).2 ⟨rfl, hne⟩) (List.not_mem_nil _)
      show (t, l) ∈ [(k, [it])] ↔ _
      rw [List.mem_singleton, Prod.mk.injEq]
      constructor
      · rintro ⟨rfl, rfl⟩
        rw [if_pos rfl, hft]
        exact ⟨rfl, by simp⟩
      · rintro ⟨hl, hne⟩
        by_cases htk : t = k
        · rw [if_pos htk, hft] at hl
          simp at hl
          exact ⟨htk, hl⟩
        · rw [if_neg htk, hft] at hl
          exact absurd hl hne
  | cons x rest ih =>
      intro f hnd hf k it t l
      rcases x with ⟨k0, l0⟩
      rw [List.map_cons] at hnd
      have hk0nd : k0 ∉ rest.map Prod.fst := (List.nodup_cons.1 hnd).1
      have hndrest : (rest.map Prod.fst).Nodup := (List.nodup_cons.1 hnd).2
      have hl0 : l0 = f k0 ∧ l0 ≠ [] := (hf k0 l0).1 (List.mem_cons_self _ _)
      have hnotmem : ∀ u lu, (u, lu) ∈ rest → u ≠ k0 := by
        intro u lu hu hequ
        subst hequ
        exact absurd (List.mem_map_of_mem Prod.fst hu) hk0nd
      have hrest : ∀ u lu, (u, lu) ∈ rest ↔ (lu = (if u = k0 then [] else f u) ∧ lu ≠ []) := by
        intro u lu
        constructor
        · intro hu
          rw [if_neg (hnotmem u lu hu)]
          exact (hf u lu).1 (List.mem_cons_of_mem _ hu)
        · rintro ⟨hl, hne⟩
          by_cases huk : u = k0
          · rw [if_pos huk] at hl
            exact absurd hl hne
          · rw [if_neg huk] at hl
            rcases List.mem_cons.1 ((hf u lu).2 ⟨hl, hne⟩) with heq | hmem
            · exact absurd (congrArg Prod.fst heq) huk
            · exact hmem
      by_cases hk : k0 = k
      · subst hk
        have hins : insertBucket ((k0, l0) :: rest) k0 it = (k0, l0 ++ [it]) :: rest := by
          simp [insertBucket]
        rw [hins]
        rw [List.mem_cons, Prod.mk.injEq]
        constructor
        · rintro (⟨rfl, rfl⟩ | hmem)
          · rw [if_pos rfl, ← hl0.1]
            exact ⟨rfl, by simp⟩
          · have hne := hnotmem t l hmem
            have hch := (hrest t l).1 hmem
            rw [if_neg hne] at hch
            rw [if_neg hne]
            exact hch
        · rintro ⟨hl, hne⟩
          by_cases htk : t = k0
          · subst htk
            rw [if_pos rfl, ← hl0.1] at hl
            exact Or.inl ⟨rfl, hl⟩
          · rw [if_neg htk] at hl
            refine Or.inr ((hrest t l).2 ⟨?_, hne⟩)
            rw [if_neg htk]
            exact hl
      · have hins : insertBucket ((k0, l0) :: rest) k it = (k0, l0) :: insertBucket rest k it := by
          simp [insertBucket, hk]
        rw [hins]
        rw [List.mem_cons, Prod.mk.injEq]
        have ihrest := ih (fun u => if u = k0 then [] else f u) hndrest hrest k it t l
        constructor
        · rintro (⟨rfl, rfl⟩ | hmem)
          · rw [if_neg hk]
            exact ⟨hl0.1, hl0.2⟩
          · have hch := ihrest.1 hmem
            by_cases htk0 : t = k0
            · subst htk0
              rw [if_neg hk, if_pos rfl] at hch
              exact absurd hch.1 hch.2
            · simp only [if_neg htk0] at hch
              exact hch
        · rintro ⟨hl, hne⟩
          by_cases htk0 : t = k0
          · subst htk0
            rw [if_neg hk] at hl
            exact Or.inl ⟨rfl, by rw [hl, ← hl0.1]⟩
          · refine Or.inr (ihrest.2 ⟨?_, hne⟩)
            simp only [if_neg htk0]
            exact hl

/-- Each bucket of the reference table holds exactly the items of its key,
in their original order. -/
theorem bucketTable_char (items : List FactItem) :
    ∀ t l, (t, l) ∈ bucketTable items ↔
      (l = items.filter (fun x => jsGroupKey x == t) ∧ l ≠ []) := by
  induction items using List.reverseRecOn with
  | nil =>
      intro t l
      constructor
      · intro h
        exact absurd h (List.not_mem_nil _)
      · rintro ⟨hl, hne⟩
        simp at hl
        exact absurd hl hne
  | append_singleton xs x ih =>
      intro t l
      rw [bucketTable_append,
        insertBucket_char (bucketTable xs) (fun u => xs.filter (fun y => jsGroupKey y == u))
          (bucketTable_keys_nodup xs) (fun u lu => ih u lu) (jsGroupKey x) x t l]
      have hfil : (xs ++ [x]).filter (fun y => jsGroupKey y == t) =
          if t = jsGroupKey x then xs.filter (fun y => jsGroupKey y == t) ++ [x]
          else xs.filter (fun y => jsGroupKey y == t) := by
        rw [List.filter_append]
        by_cases ht : t = jsGroupKey x
        · rw [if_pos ht]
          have : (jsGroupKey x == t) = true := by simp [ht]
          simp [List.filter_cons, this]
        · rw [if_neg ht]
          have : (jsGroupKey x == t) = false := by
            simp
            exact fun h => ht h.symm
          simp [List.filter_cons, this]
      rw [hfil]

/-- Keys already accumulated persist through the first-seen fold. -/
theorem firstSeenKeys_acc_persist (items : List FactItem) :
    ∀ (acc : List String) (x : String), x ∈ acc →
      x ∈ items.foldl
        (fun acc it => if jsGroupKey it ∈ acc then acc else acc ++ [jsGroupKey it]) acc := by
  induction items with
  | nil => exact fun acc x h => h
  | cons it rest ih =>
      intro acc x h
      simp only [List.foldl_cons]
      apply ih
      by_cases hmem : jsGroupKey it ∈ acc
      · rw [if_pos hmem]
        exact h
      · rw [if_neg hmem]
        exact List.mem_append_left _ h

/-- The first item's group key is a first-seen key. -/
theorem head_key_mem_firstSeenKeys (it : FactItem) (rest : List FactItem) :
    jsGroupKey it ∈ firstSeenKeys (it :: rest) := by
  unfold firstSeenKeys
  simp only [List.foldl_cons]
  apply firstSeenKeys_acc_persist
  simp

/-- Every first-seen key owns a bucket of the entries list, holding exactly
its items. -/
theorem firstSeenKeys_bucket (items : List FactItem) :
    ∀ t ∈ firstSeenKeys items,
      (t, items.filter (fun x => jsGroupKey x == t)) ∈ jsEntries (bucketTable items) := by
  intro t ht
  rw [← bucketTable_keys] at ht
  rcases List.mem_map.1 ht with ⟨p, hp, hfst⟩
  have hp2 : (t, p.2) ∈ bucketTable items := by
    rwa [show (t, p.2) = p from Prod.ext hfst.symm rfl]
  have hchar := (bucketTable_char items t p.2).1 hp2
  rw [mem_jsEntries, ← hchar.1]
  exact hp2

/-- With no prototype collision on the key, one loop step computes the
reference insertion. -/
theorem insertGroup_eq_of_ok (k : String) (it : FactItem) :
    ∀ gs : List (String × List FactItem), k ∉ protoObjectKeys →
      insertGroup gs k it = some (insertBucket gs k it) := by
  intro gs hk
  induction gs with
  | nil => simp [insertGroup, insertBucket, hk]
  | cons x rest ih =>
      rcases x with ⟨k0, l0⟩
      by_cases h0 : k0 = k
      · simp [insertGroup, insertBucket, h0]
      · simp [insertGroup, insertBucket, h0, ih]

/-- A prototype-member key with no own bucket makes the loop step throw. -/
theorem insertGroup_none_of_proto (k : String) (it : FactItem) :
    ∀ gs : List (String × List FactItem), k ∈ protoObjectKeys →
      k ∉ gs.map Prod.fst → insertGroup gs k it = none := by
  intro gs hk
  induction gs with
  | nil =>
      intro _
      simp [insertGroup, hk]
  | cons x rest ih =>
      rcases x with ⟨k0, l0⟩
      intro hmem
      rw [List.map_cons, List.mem_cons, not_or] at hmem
      have h0 : ¬(k0 = k) := fun h => hmem.1 h.symm
      simp [insertGroup, h0, ih hmem.2]

/-- When no item's group key collides with the prototype, the loop completes
and computes the reference table. -/
theorem buildGroupsAux_ok (items : List FactItem) :
    ∀ gs, (∀ it ∈ items, jsGroupKey it ∉ protoObjectKeys) →
      buildGroupsAux gs items =
        some (items.foldl (fun gs it => insertBucket gs (jsGroupKey it) it) gs) := by
  induction items with
  | nil =>
      intro gs _
      rfl
  | cons it rest ih =>
      intro gs h
      have h1 : jsGroupKey it ∉ protoObjectKeys := h it (List.mem_cons_self _ _)
      have hstep : buildGroupsAux gs (it :: rest) =
          buildGroupsAux (insertBucket gs (jsGroupKey it) it) rest := by
        simp [buildGroupsAux, insertGroup_eq_of_ok _ _ gs h1]
      rw [hstep, ih _ (fun x hx => h x (List.mem_cons_of_mem _ hx))]
      simp [List.foldl_cons]

/-- The grouping loop completes exactly as the reference table when no type
key is an `Object.prototype` member name. -/
theorem buildGroups_ok (items : List FactItem)
    (h : ∀ it ∈ items, jsGroupKey it ∉ protoObjectKeys) :
    buildGroups items = some (bucketTable items) :=
  buildGroupsAux_ok items [] h

/-- Starting from a table whose keys avoid the prototype, the loop throws as
soon as some item's key collides with it. -/
theorem buildGroupsAux_none (items : List FactItem) :
    ∀ gs, (∀ x ∈ gs.map Prod.fst, x ∉ protoObjectKeys) →
      (∃ it ∈ items, jsGroupKey it ∈ protoObjectKeys) →
      buildGroupsAux gs items = none := by
  induction items with
  | nil =>
      intro gs _ hex
      rcases hex with ⟨it, hit, _⟩
      exact absurd hit (List.not_mem_nil _)
  | cons it rest ih =>
      intro gs hinv hex
      by_cases hk : jsGroupKey it ∈ protoObjectKeys
      · have hnotkey : jsGroupKey it ∉ gs.map Prod.fst := fun hmem => (hinv _ hmem) hk
        simp [buildGroupsAux, insertGroup_none_of_proto _ it gs hk hnotkey]
      · have hstep : buildGroupsAux gs (it :: rest) =
            buildGroupsAux (insertBucket gs (jsGroupKey it) it) rest := by
          simp [buildGroupsAux, insertGroup_eq_of_ok _ it gs hk]
        rw [hstep]
        apply ih
        · intro x hx
          rw [insertBucket_keys] at hx
          by_cases hmem : jsGroupKey it ∈ gs.map Prod.fst
          · rw [if_pos hmem] at hx
            exact hinv x hx
          · rw [if_neg hmem] at hx
            rcases List.mem_append.1 hx with h2 | h2
            · exact hinv x h2
            · exact (List.mem_singleton.1 h2) ▸ hk
        · rcases hex with ⟨y, hy, hyp⟩
          rcases List.mem_cons.1 hy with heq | hy2
          · exact absurd (heq ▸ hyp) hk
          · exact ⟨y, hy2, hyp⟩

/-- The grouping loop throws whenever some item's type key is an
`Object.prototype` member name. -/
theorem buildGroups_none_of_proto (items : List FactItem)
    (hex : ∃ it ∈ items, jsGroupKey it ∈ protoObjectKeys) :
    buildGroups items = none :=
  buildGroupsAux_none items [] (by simp) hex

/-- C4 (amended): provided no type key is an `Object.prototype` member name
(otherwise the grouping loop throws an uncaught TypeError, last-but-one
conjunct), a non-empty item list is grouped by `type` — missing type going to
the fixed `Other` bucket — with each bucket holding exactly its key's items
in original order; the rendered sections carry titles `"<type> (<count>)"`
with only the first section expanded; a non-empty summary renders exactly
once, after all groups, even when the item list is empty; and the group keys
appear in first-seen order PROVIDED additionally no group key is a canonical
array-index string — such keys are enumerated first, in ascending numeric
order, by `Object.entries`. -/
theorem renderAnalysis_grouping_spec (a : Analysis) :
    (a.items ≠ [] →
      (∀ it ∈ a.items, jsGroupKey it ∉ protoObjectKeys) →
      buildGroups a.items = some (bucketTable a.items) ∧
      (∀ t l, (t, l) ∈ jsEntries (bucketTable a.items) ↔
        (l = a.items.filter (fun x => jsGroupKey x == t) ∧ l ≠ [])) ∧
      ((∀ p ∈ bucketTable a.items, isArrayIndex p.1 = false) →
        (jsEntries (bucketTable a.items)).map Prod.fst = firstSeenKeys a.items) ∧
      groupViews (bucketTable a.items) ≠ [] ∧
      ((groupViews (bucketTable a.items)).map GroupView.isOpen =
        (List.range (groupViews (bucketTable a.items)).length).map (fun i => i == 0)) ∧
      (∀ g ∈ groupViews (bucketTable a.items), ∃ t,
        g.items = a.items.filter (fun x => jsGroupKey x == t) ∧ g.items ≠ [] ∧
        g.title = t ++ " (" ++ toString g.items.length ++ ")") ∧
      (∀ t ∈ firstSeenKeys a.items,
        (t, a.items.filter (fun x => jsGroupKey x == t)) ∈ jsEntries (bucketTable a.items)) ∧
      renderAnalysis a = .content ((groupViews (bucketTable a.items)).map RenderBlock.group ++
        (if a.summary = "" then [] else [RenderBlock.summaryBlock a.summary]))) ∧
    ((∃ it ∈ a.items, jsGroupKey it ∈ protoObjectKeys) → renderAnalysis a = .thrown) ∧
    (a.summary ≠ "" →
      renderAnalysis { items := [], summary := a.summary } =
        .content [RenderBlock.summaryBlock a.summary]) := by
  refine ⟨?_, ?_, ?_⟩
  · intro h hproto
    have hok : buildGroups a.items = some (bucketTable a.items) := buildGroups_ok a.items hproto
    refine ⟨hok, ?_, ?_, ?_, ?_, ?_, firstSeenKeys_bucket a.items, ?_⟩
    · intro t l
      rw [mem_jsEntries]
      exact bucketTable_char a.items t l
    · intro hidx
      rw [jsEntries_of_no_index _ hidx, bucketTable_keys]
    · obtain ⟨it, rest, hitems⟩ := List.exists_cons_of_ne_nil h
      have hkey : jsGroupKey it ∈ firstSeenKeys a.items := by
        rw [hitems]
        exact head_key_mem_firstSeenKeys it rest
      have hm := firstSeenKeys_bucket a.items (jsGroupKey it) hkey
      have hne : jsEntries (bucketTable a.items) ≠ [] := List.ne_nil_of_mem hm
      intro hgv
      apply hne
      have hlen := congrArg List.length hgv
      simp only [groupViews, List.length_map, List.enum_length, List.length_nil] at hlen
      exact List.length_eq_zero.1 hlen
    · have h1 : (groupViews (bucketTable a.items)).map GroupView.isOpen =
          ((jsEntries (bucketTable a.items)).enum.map Prod.fst).map (fun i => i == 0) := by
        simp only [groupViews, List.map_map]
        rfl
      have h2 : (groupViews (bucketTable a.items)).length =
          (jsEntries (bucketTable a.items)).length := by
        simp [groupViews]
      rw [h1, List.enum_map_fst, h2]
    · intro g hg
      rcases List.mem_map.1 hg with ⟨p, hp, rfl⟩
      have hsnd : p.2 ∈ jsEntries (bucketTable a.items) := by
        rw [List.enum_eq_zip_range] at hp
        exact (List.of_mem_zip hp).2
      have hchar := (bucketTable_char a.items p.2.1 p.2.2).1 ((mem_jsEntries _ _).1 hsnd)
      exact ⟨p.2.1, hchar.1, hchar.2, rfl⟩
    · have hcond : ¬(a.items = [] ∧ a.summary = "") := fun hc => h hc.1
      simp [renderAnalysis, hcond, hok]
  · rintro ⟨it, hit, hp⟩
    have hne : a.items ≠ [] := List.ne_nil_of_mem hit
    have hnone : buildGroups a.items = none := buildGroups_none_of_proto a.items ⟨it, hit, hp⟩
    have hcond : ¬(a.items = [] ∧ a.summary = "") := fun hc => hne hc.1
    simp [renderAnalysis, hcond, hnone]
  · intro hs
    simp [renderAnalysis, hs, buildGroups, buildGroupsAux, groupViews, jsEntries]

/-- Counterexample to C4 as stated: the item types `"Other"` then `"0"` are
first seen in that order, but `Object.entries` enumerates the array-index key
`"0"` first, so the groups render in the order `0 (1)`, `Other (1)` — not
first-seen order — and the `0` group, not the first-seen `Other` group, is
the one expanded by default. Moreover, an item whose type names the inherited
`Object.prototype` member `toString` is not grouped at all: the loop's
`groups[t].push` throws an uncaught TypeError (last two conjuncts). -/
theorem renderAnalysis_key_order_counterexample :
    firstSeenKeys c4Items = ["Other", "0"] ∧
    buildGroups c4Items = some (bucketTable c4Items) ∧
    (jsEntries (bucketTable c4Items)).map Prod.fst = ["0", "Other"] ∧
    (["0", "Other"] : List String) ≠ ["Other", "0"] ∧
    renderAnalysis c4Analysis = .content
      [RenderBlock.group { title := "0 (1)", isOpen := true, items := [c4ItemZero] },
       RenderBlock.group { title := "Other (1)", isOpen := false, items := [c4ItemOther] }] ∧
    jsGroupKey c4ItemProto = "toString" ∧
    renderAnalysis { items := [c4ItemOther, c4ItemProto], summary := "" } = .thrown := by
  exact ⟨by decide, by decide, by decide, by decide, by decide, by decide, by decide⟩

/-- Witness for C4 (amended) at the spec's own example
`{"items":[{"type":"Risk","metric":"EPS","value":"-0.10","reason":"miss"}],"summary":"ok"}`:
one group `Risk (1)`, expanded, followed by the summary block. -/
theorem renderAnalysis_grouping_spec_witness :
    renderAnalysis
        { items := [{ type := "Risk", metric := "EPS", value := "-0.10", reason := "miss" }],
          summary := "ok" } =
      .content ((groupViews (bucketTable
          [{ type := "Risk", metric := "EPS", value := "-0.10", reason := "miss" }])).map
            RenderBlock.group ++
        (if ("ok" : String) = "" then [] else [RenderBlock.summaryBlock "ok"])) :=
  ((renderAnalysis_grouping_spec
    { items := [{ type := "Risk", metric := "EPS", value := "-0.10", reason := "miss" }],
      summary := "ok" }).1 (by decide) (by decide)).2.2.2.2.2.2.2
